import Mathlib

/-!
Verification of the stronghold secure-client core: address derivation
(`src/client/src/state/secure.rs`), the `SecureClient` state operations, and
the snapshot coordinator's message handling
(`src/client/src/actors/snapshot.rs`).

Machine integers (`usize`, bytes of `Vec<u8>`) are modelled as `Nat`; the
counters involved stay far below `2^64`, so no overflow wrap is reachable.
-/

namespace Stronghold

/-- A byte string (`Vec<u8>` in the source). -/
abbrev Bytes := List Nat

/-- Modelled from the spec: `RecordId` (from the engine crate, not under
`src/`) is an opaque fixed-width identifier produced by a deterministic,
one-way, collision-resistant derivation from a byte path. Collision
resistance is modelled exactly: the identifier carries the derivation
input itself, so two ids are equal iff their derivation paths are. -/
structure RecordId where
  digest : Bytes
deriving DecidableEq

/-- Modelled from the spec: `VaultId`, like `RecordId`, wraps the derivation
path; spec §3 requires determinism and collision resistance. -/
structure VaultId where
  digest : Bytes
deriving DecidableEq

/-- Modelled from the spec: `RecordId::load_from_path(data, path)` (the
`LoadFromPath` impl lives outside `src/`). Spec §3 describes both path
components of a Generic location as "independently derived", so the id is a
function of the `path` argument alone. -/
def RecordId.load_from_path (data path : Bytes) : RecordId := ⟨path⟩

/-- Modelled from the spec: `VaultId::load_from_path`, as for `RecordId`. -/
def VaultId.load_from_path (data path : Bytes) : VaultId := ⟨path⟩

/-- `VaultId: AsRef<[u8]>` — the raw bytes of the id. -/
def VaultId.as_ref (v : VaultId) : Bytes := v.digest

/-- `Location` (caller-facing address), the two variants of the source enum. -/
inductive Location where
  | generic (vault_path : Bytes) (record_path : Bytes)
  | counter (vault_path : Bytes) (ctr : Nat)
deriving DecidableEq

/-- ASCII bytes of the decimal representation of `n`, as Rust's integer
`Display` formatting produces (`format!("{}", n)`). -/
def decimalBytes (n : Nat) : Bytes :=
  if n = 0 then [48] else ((Nat.digits 10 n).reverse.map fun d => 48 + d)

/-- Recovers `n` from `decimalBytes n` (digit bytes back to digits, then the
base-10 value); only used to prove `decimalBytes` injective. -/
def decVal (l : List Nat) : Nat :=
  Nat.ofDigits 10 ((l.map fun b => b - 48).reverse)

/-- Bytes of Rust's `Debug` formatting of a `Vec<u8>`:
`format!("{:?}", v)` prints `[b0, b1, ...]` — `[` then the decimal bytes
separated by `, ` then `]`. -/
def debugVecBytes (vp : Bytes) : Bytes :=
  91 :: (List.intercalate [44, 32] (vp.map decimalBytes)) ++ [93]

/-- The ASCII bytes of the literal `"first_record"`. -/
def firstRecordBytes : Bytes :=
  [102, 105, 114, 115, 116, 95, 114, 101, 99, 111, 114, 100]

/-- `SecureClient::derive_vault_id` (secure.rs): derives the vault id from
the path, passing the path as both arguments of `load_from_path`. -/
def derive_vault_id (path : Bytes) : VaultId :=
  VaultId.load_from_path path path

/-- `SecureClient::derive_record_id` (secure.rs): builds the synthetic path
`format!("{:?}", vault_path)` followed by `"first_record"` for counter 0 and
by the decimal counter otherwise, then derives the record id from it. -/
def derive_record_id (vault_path : Bytes) (ctr : Nat) : RecordId :=
  let path := if ctr = 0 then debugVecBytes vault_path ++ firstRecordBytes
    else debugVecBytes vault_path ++ decimalBytes ctr
  RecordId.load_from_path path path

/-- `SecureClient::resolve_location` (secure.rs): resolves a `Location` to a
`(VaultId, RecordId)` pair, per variant. -/
def resolve_location (l : Location) : VaultId × RecordId :=
  match l with
  | .generic vault_path record_path =>
      let vid := derive_vault_id vault_path
      let rid := RecordId.load_from_path vid.as_ref record_path
      (vid, rid)
  | .counter vault_path ctr =>
      let vid := derive_vault_id vault_path
      let rid := derive_record_id vault_path ctr
      (vid, rid)

/-- The loop body of `SecureClient::get_index_from_record_id` (secure.rs):
starting from counter `ctr`, while `ctr <= 32_000_000`, derive the record id
for `ctr` and stop on a match, else increment. Returns the final counter. -/
def get_index_scan (vault_path : Bytes) (record_id : RecordId) (ctr : Nat) : Nat :=
  if h : ctr ≤ 32000000 then
    if record_id = derive_record_id vault_path ctr then ctr
    else get_index_scan vault_path record_id (ctr + 1)
  else ctr
termination_by 32000001 - ctr
decreasing_by omega

/-- `SecureClient::get_index_from_record_id` (secure.rs): the linear scan
from counter 0. (The method takes `&self` but never uses it.) -/
def get_index_from_record_id (vault_path : Bytes) (record_id : RecordId) : Nat :=
  get_index_scan vault_path record_id 0

/-- `ClientId` — opaque fixed-width identifier of a logical client. -/
abbrev ClientId := Nat

/-- A symmetric vault key. Its value is never inspected by the claims. -/
abbrev Key := Nat

/-- Modelled from the spec: `KeyStore` (state/key_store.rs, not under `src/`)
owns at most one symmetric key per vault id; insertion is a last-write-wins
upsert (spec §3, §4.2). -/
structure KeyStore where
  table : List (VaultId × Key)
deriving DecidableEq

/-- Modelled from the spec: `KeyStore::get_key` looks up the key of a vault
id, `none` when the vault was never created. -/
def KeyStore.get_key (ks : KeyStore) (vid : VaultId) : Option Key :=
  (ks.table.find? fun e => e.fst == vid).map Prod.snd

/-- Modelled from the spec: `KeyStore::insert_key` — upsert, replacing any
existing key for the id. -/
def KeyStore.insert_key (ks : KeyStore) (vid : VaultId) (key : Key) : KeyStore :=
  ⟨(vid, key) :: ks.table.filter fun e => !(e.fst == vid)⟩

/-- Modelled from the spec: `KeyStore::vault_exists` — whether a key is held
for the vault id. -/
def KeyStore.vault_exists (ks : KeyStore) (vid : VaultId) : Bool :=
  (ks.get_key vid).isSome

/-- Modelled from the spec: fresh-key generation inside
`KeyStore::create_key` is random in the source; the key value is opaque to
every claim, so it is modelled by an unspecified deterministic generator. -/
def genKey (vid : VaultId) : Key := vid.digest.length

/-- Modelled from the spec: `KeyStore::create_key` generates a fresh key for
the vault id and stores it (replacing any previous one). -/
def KeyStore.create_key (ks : KeyStore) (vid : VaultId) : Key × KeyStore :=
  let k := genKey vid
  (k, ks.insert_key vid k)

/-- Modelled from the spec: `DbView` (engine crate, not under `src/`) — the
opaque encrypted vault/record storage; the claims only need vault
initialization, which registers the vault id. -/
structure DbView where
  inited : List VaultId
deriving DecidableEq

/-- Modelled from the spec: `DbView::init_vault` initializes an empty
encrypted vault under the given key. -/
def DbView.init_vault (db : DbView) (key : Key) (vid : VaultId) : Except String DbView :=
  Except.ok ⟨vid :: db.inited⟩

/-- Modelled from the spec: the ephemeral unencrypted cache (`Store =
Cache<Vec<u8>, Vec<u8>>`, engine crate, not under `src/`). No claim touches
its entries, only whether the whole cache changed, so expiry bookkeeping is
omitted. -/
abbrev Store := List (Bytes × Bytes)

/-- `SecureClient` (secure.rs): keystore, db view, client id, vault
membership set, ephemeral store. The `HashSet<VaultId>` is modelled as a
duplicate-free-by-construction list with set insertion. -/
structure SecureClient where
  keystore : KeyStore
  db : DbView
  client_id : ClientId
  vaults : List VaultId
  store : Store
deriving DecidableEq

/-- `SecureClient::new` (secure.rs): empty vaults, store, keystore, db. -/
def SecureClient.new (client_id : ClientId) : SecureClient :=
  { client_id := client_id, vaults := [], store := [], keystore := ⟨[]⟩, db := ⟨[]⟩ }

/-- `SecureClient::set_client_id` (secure.rs). -/
def SecureClient.set_client_id (c : SecureClient) (client_id : ClientId) : SecureClient :=
  { c with client_id := client_id }

/-- `HashSet::insert`: set-semantics insertion. -/
def hsInsert (l : List VaultId) (v : VaultId) : List VaultId :=
  if v ∈ l then l else v :: l

/-- `SecureClient::add_new_vault` (secure.rs). -/
def SecureClient.add_new_vault (c : SecureClient) (vid : VaultId) : SecureClient :=
  { c with vaults := hsInsert c.vaults vid }

/-- `SecureClient::clear_cache` (secure.rs): sets `vaults` to the default
(empty) set and returns `Some(())`. -/
def SecureClient.clear_cache (c : SecureClient) : Option Unit × SecureClient :=
  (some (), { c with vaults := [] })

/-- `SecureClient::vault_exist` (secure.rs): `self.vaults.get(&vid)`. -/
def SecureClient.vault_exist (c : SecureClient) (vid : VaultId) : Option VaultId :=
  if vid ∈ c.vaults then some vid else none

/-- `SecureClient::get_key` (secure.rs): look the key up (error
`NotExisting` when absent), re-insert it, return it. -/
def SecureClient.get_key (c : SecureClient) (vault_id : VaultId) :
    Except String Key × SecureClient :=
  match c.keystore.get_key vault_id with
  | none => (Except.error "NotExisting", c)
  | some key =>
      (Except.ok key, { c with keystore := c.keystore.insert_key vault_id key })

/-- `SecureClient::get_or_create_key` (secure.rs): when the keystore has no
key for the vault id, create one and initialize the vault in the db view
(propagating `init_vault` failure with the keystore already mutated, as the
`?` in the source does); otherwise fetch the existing key (error
`KeyStoreError` when lookup fails despite claimed existence). In both
success paths the key is then re-inserted and returned. -/
def SecureClient.get_or_create_key (c : SecureClient) (vault_id : VaultId) :
    Except String Key × SecureClient :=
  if c.keystore.vault_exists vault_id = false then
    let r := c.keystore.create_key vault_id
    match c.db.init_vault r.fst vault_id with
    | Except.error e => (Except.error e, { c with keystore := r.snd })
    | Except.ok db =>
        (Except.ok r.fst,
          { c with keystore := r.snd.insert_key vault_id r.fst, db := db })
  else
    match c.keystore.get_key vault_id with
    | none => (Except.error "KeyStoreError", c)
    | some key =>
        (Except.ok key, { c with keystore := c.keystore.insert_key vault_id key })

/-- `snapshot::Key` — the symmetric snapshot-file key, opaque here. -/
abbrev SnapKey := Nat

/-- `PathBuf` / filename strings, opaque to the claims. -/
abbrev PathBuf := String

/-- Modelled from the spec: one client's exported state triple
`(keymap, db, store)` as staged in a snapshot (spec §3 `SnapshotState`). -/
structure ClientData where
  keymap : List (VaultId × Key)
  db : DbView
  store : Store
deriving DecidableEq

/-- Modelled from the spec: the default (empty) client triple that
`get_state` yields for an absent client id. -/
def ClientData.default : ClientData := ⟨[], ⟨[]⟩, []⟩

/-- Modelled from the spec: `SnapshotState` (state/snapshot.rs, not under
`src/`) maps client ids to staged triples; its `Default` is the empty
mapping. -/
structure SnapshotState where
  table : List (ClientId × ClientData)
deriving DecidableEq

/-- `SnapshotState::default()`: the empty mapping. -/
def SnapshotState.default : SnapshotState := ⟨[]⟩

/-- Modelled from the spec: `SnapshotState::add_data` stages one client's
triple, overwriting any prior entry for that client id. -/
def SnapshotState.add_data (s : SnapshotState) (id : ClientId) (data : ClientData) :
    SnapshotState :=
  ⟨(id, data) :: s.table.filter fun e => !(e.fst == id)⟩

/-- The in-memory snapshot container owned by the coordinator
(state/snapshot.rs `Snapshot`, not under `src/`; modelled from the spec as
a wrapper around its `SnapshotState`). -/
structure Snapshot where
  state : SnapshotState
deriving DecidableEq

/-- Modelled from the spec: `Snapshot::get_state` extracts a client's
triple, the default triple when absent. -/
def Snapshot.get_state (s : Snapshot) (id : ClientId) : ClientData :=
  ((s.state.table.find? fun e => e.fst == id).map Prod.snd).getD ClientData.default

/-- Modelled from the spec: `Snapshot::has_data` — whether the client id has
a staged triple. -/
def Snapshot.has_data (s : Snapshot) (id : ClientId) : Bool :=
  (s.state.table.find? fun e => e.fst == id).isSome

/-- `StatusMessage` (stronghold utils, not under `src/`): the variants the
snapshot actor uses — `OK`, `Ok(())` and `Error(String)`. -/
inductive StatusMessage where
  | OK
  | Ok (u : Unit)
  | Error (msg : String)
deriving DecidableEq

/-- Modelled from the spec: the reply payloads (`SHResults`, defined outside
`src/`); only the snapshot-related variants are needed. -/
inductive SHResults where
  | ReturnFillSnap (status : StatusMessage)
  | ReturnReadSnap (status : StatusMessage)
  | ReturnWriteSnap (status : StatusMessage)
  | ReturnSynchronizeSnapshot (status : StatusMessage)
deriving DecidableEq

/-- `InternalMsg::ReloadData` (the one internal message the snapshot actor
sends). -/
inductive InternalMsg where
  | ReloadData (id : ClientId) (data : ClientData) (status : StatusMessage)
deriving DecidableEq

/-- `SMsg` (actors/snapshot.rs): the snapshot actor's request enum. -/
inductive SMsg where
  | WriteSnapshot (key : SnapKey) (filename : Option String) (path : Option PathBuf)
  | FillSnapshot (data : ClientData) (id : ClientId)
  | ReadFromSnapshot (key : SnapKey) (filename : Option String) (path : Option PathBuf)
      (id : ClientId) (fid : Option ClientId)
  | SynchronizeSnapshot (id : ClientId) (key : SnapKey) (f_other : Option String)
      (p_other : Option PathBuf) (p_target : PathBuf) (k_target : SnapKey)
deriving DecidableEq

/-- Modelled from the spec: outcomes of the three snapshot file operations
(`Snapshot::read_from_snapshot`, `write_to_snapshot`, `synchronize`,
implemented in state/snapshot.rs, not under `src/`). Each is an oracle
giving the result the file system and cipher produce for the given
arguments; a successful read yields the freshly loaded container. -/
structure FsModel where
  read_from_snapshot : Option String → Option PathBuf → SnapKey → Except String Snapshot
  write_to_snapshot : Option String → Option PathBuf → SnapKey → Except String Unit
  synchronize : Option PathBuf → Option String → SnapKey → PathBuf → SnapKey →
    Except String Unit

/-- A file operation the handler performed, in order. -/
inductive FsOp where
  | readOp (filename : Option String) (path : Option PathBuf) (key : SnapKey)
  | writeOp (filename : Option String) (path : Option PathBuf) (key : SnapKey)
  | syncOp (p_other : Option PathBuf) (f_other : Option String) (key : SnapKey)
      (p_target : PathBuf) (k_target : SnapKey)
deriving DecidableEq

/-- The observable outcome of handling one `SMsg`: the actor's new state,
the reply sent to the sender, the message sent to the internal actor, the
file operations performed, and whether the "No data present" warning was
printed. -/
structure RecvResult where
  snapshot : Snapshot
  reply : Option SHResults
  internal : Option InternalMsg
  fsOps : List FsOp
  warned : Bool
deriving DecidableEq

/-- The error text the read handler formats around the underlying error. -/
def readErrMsg (e : String) : String :=
  e ++ ", Unable to read snapshot. Please try another password."

/-- `Receive<SMsg> for Snapshot::receive` (actors/snapshot.rs), the snapshot
coordinator's handler, one branch per request variant. `none` models an
`expect` panic (write or synchronize failure crashes the actor). The file
operations' outcomes come from the `FsModel` oracle. -/
def Snapshot.receive (s : Snapshot) (fs : FsModel) (msg : SMsg) : Option RecvResult :=
  match msg with
  | .FillSnapshot data id =>
      some { snapshot := ⟨s.state.add_data id data⟩,
             reply := some (.ReturnFillSnap .OK),
             internal := none, fsOps := [], warned := false }
  | .ReadFromSnapshot key filename path id fid =>
      let cid := fid.getD id
      if s.has_data cid then
        some { snapshot := s, reply := none,
               internal := some (.ReloadData cid (s.get_state cid) .OK),
               fsOps := [], warned := false }
      else
        match fs.read_from_snapshot filename path key with
        | Except.ok snapshot =>
            some { snapshot := snapshot, reply := none,
                   internal := some (.ReloadData cid (snapshot.get_state cid) .OK),
                   fsOps := [FsOp.readOp filename path key], warned := false }
        | Except.error e =>
            some { snapshot := s,
                   reply := some (.ReturnReadSnap (.Error (readErrMsg e))),
                   internal := none,
                   fsOps := [FsOp.readOp filename path key], warned := false }
  | .WriteSnapshot key filename path =>
      match fs.write_to_snapshot filename path key with
      | Except.ok _ =>
          some { snapshot := ⟨SnapshotState.default⟩,
                 reply := some (.ReturnWriteSnap .OK),
                 internal := none,
                 fsOps := [FsOp.writeOp filename path key], warned := false }
      | Except.error _ => none
  | .SynchronizeSnapshot id key f_other p_other p_target k_target =>
      match fs.synchronize p_other f_other key p_target k_target with
      | Except.ok _ =>
          some { snapshot := s,
                 reply := some (.ReturnSynchronizeSnapshot (.Ok ())),
                 internal := none,
                 fsOps := [FsOp.syncOp p_other f_other key p_target k_target],
                 warned := !(s.has_data id) }
      | Except.error _ => none

/-- A concrete oracle for instantiating the handler theorems: reading fails,
writing and synchronizing succeed. -/
def fsSample : FsModel :=
  { read_from_snapshot := fun _ _ _ => Except.error "bad",
    write_to_snapshot := fun _ _ _ => Except.ok (),
    synchronize := fun _ _ _ _ _ => Except.ok () }

/-- A concrete container with one staged client (id 7), for instantiating
the handler theorems. -/
def snapSample : Snapshot := ⟨⟨[(7, ClientData.default)]⟩⟩

/-! ### Helper lemmas on decimal formatting and the derivation paths -/

theorem digits10_injective : Function.Injective (Nat.digits 10) :=
  Function.LeftInverse.injective (Nat.ofDigits_digits 10)

theorem decVal_decimalBytes (n : Nat) : decVal (decimalBytes n) = n := by
  unfold decVal decimalBytes
  by_cases hn : n = 0
  · simp [hn]
  · rw [if_neg hn, List.map_map]
    have hid : ((fun b => b - 48) ∘ fun d : Nat => 48 + d) = id := by
      funext d
      simp
    rw [hid, List.map_id, List.reverse_reverse, Nat.ofDigits_digits]

theorem decimalBytes_injective : Function.Injective decimalBytes :=
  Function.LeftInverse.injective decVal_decimalBytes

theorem decimalBytes_le (n : Nat) : ∀ b ∈ decimalBytes n, b ≤ 57 := by
  intro b hb
  unfold decimalBytes at hb
  by_cases hn : n = 0
  · rw [if_pos hn] at hb
    simp at hb
    omega
  · rw [if_neg hn] at hb
    simp at hb
    obtain ⟨d, hd, hrfl⟩ := hb
    have := Nat.digits_lt_base (by norm_num) hd
    omega

theorem firstRecord_ne_decimal (n : Nat) : firstRecordBytes ≠ decimalBytes n := by
  intro h
  have h102 : (102 : Nat) ∈ decimalBytes n := by
    rw [← h]
    simp [firstRecordBytes]
  have := decimalBytes_le n 102 h102
  omega

theorem derive_record_id_inj (vp : Bytes) {c c' : Nat}
    (h : derive_record_id vp c = derive_record_id vp c') : c = c' := by
  unfold derive_record_id RecordId.load_from_path at h
  have h2 := congrArg RecordId.digest h
  simp only at h2
  by_cases hc : c = 0 <;> by_cases hc' : c' = 0
  · omega
  · exfalso
    rw [if_pos hc, if_neg hc'] at h2
    exact firstRecord_ne_decimal c' (List.append_cancel_left h2)
  · exfalso
    rw [if_neg hc, if_pos hc'] at h2
    exact firstRecord_ne_decimal c (List.append_cancel_left h2.symm)
  · rw [if_neg hc, if_neg hc'] at h2
    exact decimalBytes_injective (List.append_cancel_left h2)

theorem derive_record_id_ne_empty (vp : Bytes) (c : Nat) :
    derive_record_id vp c ≠ RecordId.mk [] := by
  unfold derive_record_id RecordId.load_from_path
  intro h
  have h2 := congrArg RecordId.digest h
  simp only [debugVecBytes] at h2
  by_cases hc : c = 0 <;> simp [hc] at h2

/-! ### Helper lemmas on the linear scan -/

theorem get_index_scan_no_match (vp : Bytes) (rid : RecordId) :
    ∀ k ctr, 32000001 - ctr = k → ctr ≤ 32000001 →
      (∀ c, ctr ≤ c → c ≤ 32000000 → derive_record_id vp c ≠ rid) →
      get_index_scan vp rid ctr = 32000001 := by
  intro k
  induction k with
  | zero =>
      intro ctr h1 h2 _
      have hc : ctr = 32000001 := by omega
      subst hc
      unfold get_index_scan
      norm_num
  | succ n ih =>
      intro ctr h1 h2 h3
      have hle : ctr ≤ 32000000 := by omega
      have hne : ¬ (rid = derive_record_id vp ctr) := fun he =>
        h3 ctr le_rfl hle he.symm
      unfold get_index_scan
      rw [dif_pos hle, if_neg hne]
      exact ih (ctr + 1) (by omega) (by omega) fun c hc1 hc2 => h3 c (by omega) hc2

theorem get_index_scan_first_match (vp : Bytes) (rid : RecordId) :
    ∀ k ctr, ctr + k ≤ 32000000 → rid = derive_record_id vp (ctr + k) →
      (∀ j, j < k → rid ≠ derive_record_id vp (ctr + j)) →
      get_index_scan vp rid ctr = ctr + k := by
  intro k
  induction k with
  | zero =>
      intro ctr h1 h2 _
      unfold get_index_scan
      rw [dif_pos (by omega), if_pos (by simpa using h2)]
      omega
  | succ n ih =>
      intro ctr h1 h2 h3
      have hne : ¬ (rid = derive_record_id vp ctr) := by
        have := h3 0 (Nat.succ_pos n)
        simpa using this
      unfold get_index_scan
      rw [dif_pos (by omega), if_neg hne]
      have heq : ctr + 1 + n = ctr + (n + 1) := by omega
      have := ih (ctr + 1) (by omega) (by rw [heq]; exact h2)
        (fun j hj => by rw [show ctr + 1 + j = ctr + (j + 1) by omega]; exact h3 (j + 1) (by omega))
      rw [this, heq]

theorem mem_hsInsert (l : List VaultId) (v : VaultId) : v ∈ hsInsert l v := by
  unfold hsInsert
  by_cases h : v ∈ l <;> simp [h]

/-! ### Claim theorems -/

/-- C1 (counterexample): the empty record id is not derived by any counter
at all, yet the scan at vault path `[]` returns `32_000_001`, not the cap
`32_000_000` the claim states. -/
theorem get_index_not_found_counterexample :
    (∀ c, c ≤ 32000000 → derive_record_id [] c ≠ RecordId.mk []) ∧
    get_index_from_record_id [] (RecordId.mk []) ≠ 32000000 := by
  refine ⟨fun c _ => derive_record_id_ne_empty [] c, ?_⟩
  have h := get_index_scan_no_match [] (RecordId.mk []) 32000001 0 rfl (by omega)
    (fun c _ _ => derive_record_id_ne_empty [] c)
  unfold get_index_from_record_id
  omega

/-- C1 (amended): for every vault path and every record id that no counter
in `0..=32_000_000` derives, `get_index_from_record_id` returns
`32_000_001` — one past the cap — because the loop increments the counter
past the cap before exiting. -/
theorem get_index_not_found_returns_cap_succ (vp : Bytes) (rid : RecordId)
    (h : ∀ c, c ≤ 32000000 → derive_record_id vp c ≠ rid) :
    get_index_from_record_id vp rid = 32000001 := by
  unfold get_index_from_record_id
  exact get_index_scan_no_match vp rid 32000001 0 rfl (by omega)
    (fun c _ hc2 => h c hc2)

theorem get_index_not_found_returns_cap_succ_witness :
    get_index_from_record_id [] (RecordId.mk []) = 32000001 :=
  get_index_not_found_returns_cap_succ [] (RecordId.mk [])
    (fun c _ => derive_record_id_ne_empty [] c)

/-- C2: for a Generic location the record id is derived from the record
path alone, so two Generic locations with the same record path but
different vault paths resolve to the same record id. -/
theorem generic_record_id_independent_of_vault_path (vp1 vp2 rp : Bytes) :
    (resolve_location (.generic vp1 rp)).snd = (resolve_location (.generic vp2 rp)).snd :=
  rfl

/-- C3: for every vault path and counter strictly below the cap, resolving
`Counter` to a record id and scanning it back with
`get_index_from_record_id` returns exactly the counter. -/
theorem counter_roundtrip (vp : Bytes) (c : Nat) (h : c < 32000000) :
    get_index_from_record_id vp (resolve_location (.counter vp c)).snd = c := by
  have hres : (resolve_location (.counter vp c)).snd = derive_record_id vp c := rfl
  rw [hres]
  unfold get_index_from_record_id
  have hm := get_index_scan_first_match vp (derive_record_id vp c) c 0 (by omega)
    (by simp)
    (fun j hj he => by
      have := @derive_record_id_inj vp c (0 + j) he
      omega)
  simpa using hm

theorem counter_roundtrip_witness :
    get_index_from_record_id [] (resolve_location (.counter [] 2)).snd = 2 :=
  counter_roundtrip [] 2 (by norm_num)

/-- C6: the synthetic derivation path for counter 0 (the `first_record`
marker) differs from the one for any counter `n ≥ 1` (decimal suffix), so
the derived record ids differ. -/
theorem derive_zero_ne_derive_pos (vp : Bytes) (n : Nat) (h : 1 ≤ n) :
    (debugVecBytes vp ++ firstRecordBytes ≠ debugVecBytes vp ++ decimalBytes n) ∧
    derive_record_id vp 0 ≠ derive_record_id vp n := by
  have hpath : debugVecBytes vp ++ firstRecordBytes ≠ debugVecBytes vp ++ decimalBytes n :=
    fun he => firstRecord_ne_decimal n (List.append_cancel_left he)
  refine ⟨hpath, fun he => ?_⟩
  have := derive_record_id_inj vp he
  omega

theorem derive_zero_ne_derive_pos_witness :
    (debugVecBytes [] ++ firstRecordBytes ≠ debugVecBytes [] ++ decimalBytes 1) ∧
    derive_record_id [] 0 ≠ derive_record_id [] 1 :=
  derive_zero_ne_derive_pos [] 1 (by norm_num)

/-- C8: `clear_cache` always succeeds with `Some(())`, empties the vault
membership set, and leaves the client id, keystore, db view and ephemeral
store unchanged. -/
theorem clear_cache_only_resets_vaults (c : SecureClient) :
    (c.clear_cache).fst = some () ∧
    ((c.clear_cache).snd).vaults = [] ∧
    ((c.clear_cache).snd).client_id = c.client_id ∧
    ((c.clear_cache).snd).keystore = c.keystore ∧
    ((c.clear_cache).snd).db = c.db ∧
    ((c.clear_cache).snd).store = c.store :=
  ⟨rfl, rfl, rfl, rfl, rfl, rfl⟩

/-- C9: neither `get_key` nor `get_or_create_key` touches the `vaults`
membership set; for a vault id absent from `vaults`, `vault_exist` still
returns `none` after `get_or_create_key`, and becomes `some` only once
`add_new_vault` is called. -/
theorem key_ops_preserve_vaults (c : SecureClient) (vid : VaultId)
    (h : c.vault_exist vid = none) :
    ((c.get_key vid).snd).vaults = c.vaults ∧
    ((c.get_or_create_key vid).snd).vaults = c.vaults ∧
    ((c.get_or_create_key vid).snd).vault_exist vid = none ∧
    (((c.get_or_create_key vid).snd).add_new_vault vid).vault_exist vid = some vid := by
  have hv1 : ((c.get_key vid).snd).vaults = c.vaults := by
    unfold SecureClient.get_key
    cases hk : c.keystore.get_key vid <;> simp
  have hv2 : ((c.get_or_create_key vid).snd).vaults = c.vaults := by
    unfold SecureClient.get_or_create_key
    by_cases he : c.keystore.vault_exists vid = false
    · simp [he, DbView.init_vault]
    · simp [he]
      cases hk : c.keystore.get_key vid <;> simp
  refine ⟨hv1, hv2, ?_, ?_⟩
  · unfold SecureClient.vault_exist at h ⊢
    rw [hv2]
    exact h
  · simp [SecureClient.add_new_vault, SecureClient.vault_exist, mem_hsInsert]

theorem key_ops_preserve_vaults_witness :
    (((SecureClient.new 0).get_key ⟨[]⟩).snd).vaults = (SecureClient.new 0).vaults ∧
    (((SecureClient.new 0).get_or_create_key ⟨[]⟩).snd).vaults = (SecureClient.new 0).vaults ∧
    (((SecureClient.new 0).get_or_create_key ⟨[]⟩).snd).vault_exist ⟨[]⟩ = none ∧
    ((((SecureClient.new 0).get_or_create_key ⟨[]⟩).snd).add_new_vault ⟨[]⟩).vault_exist ⟨[]⟩
      = some ⟨[]⟩ :=
  key_ops_preserve_vaults (SecureClient.new 0) ⟨[]⟩ (by decide)

/-- C10: `set_client_id` replaces the client id and leaves the keystore,
db view, vault membership set and ephemeral store unchanged. -/
theorem set_client_id_only_replaces_client_id (c : SecureClient) (id : ClientId) :
    (c.set_client_id id).client_id = id ∧
    (c.set_client_id id).keystore = c.keystore ∧
    (c.set_client_id id).db = c.db ∧
    (c.set_client_id id).vaults = c.vaults ∧
    (c.set_client_id id).store = c.store :=
  ⟨rfl, rfl, rfl, rfl, rfl⟩

/-- C4: when `write_to_snapshot` succeeds, the handler resets the container
to the empty default and replies `ReturnWriteSnap(OK)`; afterwards no client
id has staged data, so a fill-free Read cannot be served from memory. -/
theorem write_snapshot_clears_container (s : Snapshot) (fs : FsModel) (key : SnapKey)
    (filename : Option String) (path : Option PathBuf)
    (h : fs.write_to_snapshot filename path key = Except.ok ()) :
    s.receive fs (.WriteSnapshot key filename path) =
      some { snapshot := ⟨SnapshotState.default⟩,
             reply := some (.ReturnWriteSnap .OK),
             internal := none,
             fsOps := [FsOp.writeOp filename path key], warned := false } ∧
    ∀ c : ClientId, Snapshot.has_data ⟨SnapshotState.default⟩ c = false := by
  constructor
  · simp [Snapshot.receive, h]
  · intro c
    rfl

theorem write_snapshot_clears_container_witness :
    snapSample.receive fsSample (.WriteSnapshot 0 none none) =
      some { snapshot := ⟨SnapshotState.default⟩,
             reply := some (.ReturnWriteSnap .OK),
             internal := none,
             fsOps := [FsOp.writeOp none none 0], warned := false } ∧
    ∀ c : ClientId, Snapshot.has_data ⟨SnapshotState.default⟩ c = false :=
  write_snapshot_clears_container snapSample fsSample 0 none none rfl

/-- C5: when no data is staged for the subject client id and
`read_from_snapshot` fails, the handler replies `ReturnReadSnap` with the
password-retry error text, sends nothing to the internal actor, and leaves
the container exactly as it was. -/
theorem read_failure_leaves_container_unchanged (s : Snapshot) (fs : FsModel)
    (key : SnapKey) (filename : Option String) (path : Option PathBuf)
    (id : ClientId) (fid : Option ClientId) (e : String)
    (h1 : s.has_data (fid.getD id) = false)
    (h2 : fs.read_from_snapshot filename path key = Except.error e) :
    s.receive fs (.ReadFromSnapshot key filename path id fid) =
      some { snapshot := s,
             reply := some (.ReturnReadSnap (.Error (readErrMsg e))),
             internal := none,
             fsOps := [FsOp.readOp filename path key], warned := false } := by
  simp [Snapshot.receive, h1, h2]

theorem read_failure_leaves_container_unchanged_witness :
    snapSample.receive fsSample (.ReadFromSnapshot 0 none none 0 none) =
      some { snapshot := snapSample,
             reply := some (.ReturnReadSnap (.Error (readErrMsg "bad"))),
             internal := none,
             fsOps := [FsOp.readOp none none 0], warned := false } :=
  read_failure_leaves_container_unchanged snapSample fsSample 0 none none 0 none "bad"
    (by decide) rfl

/-- C7: when the subject client id has no staged data, the synchronize
handler warns ("No data present") but does not abort: it still performs the
file synchronize and, when that succeeds, replies
`ReturnSynchronizeSnapshot(Ok(()))` with the container untouched. -/
theorem synchronize_without_data_warns_and_proceeds (s : Snapshot) (fs : FsModel)
    (id : ClientId) (key : SnapKey) (f_other : Option String) (p_other : Option PathBuf)
    (p_target : PathBuf) (k_target : SnapKey)
    (h1 : s.has_data id = false)
    (h2 : fs.synchronize p_other f_other key p_target k_target = Except.ok ()) :
    s.receive fs (.SynchronizeSnapshot id key f_other p_other p_target k_target) =
      some { snapshot := s,
             reply := some (.ReturnSynchronizeSnapshot (.Ok ())),
             internal := none,
             fsOps := [FsOp.syncOp p_other f_other key p_target k_target],
             warned := true } := by
  simp [Snapshot.receive, h1, h2]

theorem synchronize_without_data_warns_and_proceeds_witness :
    snapSample.receive fsSample (.SynchronizeSnapshot 0 0 none none "t" 1) =
      some { snapshot := snapSample,
             reply := some (.ReturnSynchronizeSnapshot (.Ok ())),
             internal := none,
             fsOps := [FsOp.syncOp none none 0 "t" 1],
             warned := true } :=
  synchronize_without_data_warns_and_proceeds snapSample fsSample 0 0 none none "t" 1
    (by decide) rfl

end Stronghold
